import Mathlib

/-!
Shallow embedding of the hubiquitus-core actor container
(src/lib/application.js) and proofs about its request pipeline,
lifecycle state and middleware chain. Every definition is transcribed
from the source file; line numbers in the doc comments refer to
src/lib/application.js.
-/

namespace Hubiquitus

/-- Initial value of the property named default send timeout
(application.js line 55). -/
def defaultSendTimeout : Nat := 30000

/-- Initial value of the property named max send timeout
(application.js line 56). -/
def maxSendTimeout : Nat := 5 * 60000

/-- A JavaScript argument, discriminated exactly as the lodash tests used by
send discriminate it: a number, a function, a plain object, undefined or
null. The payloads of num and fn identify the concrete value. -/
inductive JsArg where
  | num (n : Nat)
  | fn (f : Nat)
  | obj (o : Nat)
  | undef
  | null
deriving DecidableEq

/-- lodash isFunction. -/
def isFunction : JsArg → Bool
  | JsArg.fn _ => true
  | _ => false

/-- lodash isObject: true for plain objects and for functions, false for
numbers, null and undefined. -/
def isObject : JsArg → Bool
  | JsArg.obj _ => true
  | JsArg.fn _ => true
  | _ => false

/-- JavaScript truthiness of an argument: 0, null and undefined are falsy. -/
def jsTruthy : JsArg → Bool
  | JsArg.num n => n != 0
  | JsArg.fn _ => true
  | JsArg.obj _ => true
  | JsArg.undef => false
  | JsArg.null => false

/-- Overload normalisation at the head of send (application.js lines 202-212),
returning the normalised (timeout, cb, headers) triple:
if timeout is a function it becomes the callback, the callback slot becomes
headers and timeout becomes the default send timeout; if timeout is an object
it becomes headers and timeout becomes the default send timeout; otherwise,
if cb is not a function, cb becomes null and the cb slot becomes headers. -/
def sendNormalize (timeout cb headers : JsArg) : JsArg × JsArg × JsArg :=
  if isFunction timeout then
    (JsArg.num defaultSendTimeout, timeout, cb)
  else if isObject timeout then
    (JsArg.num defaultSendTimeout, cb, timeout)
  else if !(isFunction cb) then
    (timeout, JsArg.null, cb)
  else
    (timeout, cb, headers)

/-- Numeric value of a JavaScript argument, zero for non-numbers. -/
def numVal : JsArg → Nat
  | JsArg.num n => n
  | _ => 0

/-- The effective request timeout written at application.js line 216:
req.timeout is timeout when timeout is truthy, and the max send timeout
otherwise. -/
def effectiveTimeout (t : JsArg) : Nat :=
  if jsTruthy t then numVal t else maxSendTimeout

/-- Effective timeout of a send call, lines 202-216 end to end: normalise the
overloads, then apply the truthiness fallback. -/
def sendEffectiveTimeout (timeout cb headers : JsArg) : Nat :=
  effectiveTimeout (sendNormalize timeout cb headers).1

/-- The property store update of exports.set (application.js lines 437-444).
The source condition at line 439 is an assignment: its value is the nonempty
string discoveryAddrs, which is truthy, so the then branch runs for every
string key. Returns the property list after the call and whether
discovery.setDiscoveryAddrs was invoked. -/
def set (props : List (String × Nat)) (key : String) (value : Nat) :
    List (String × Nat) × Bool :=
  if ("discoveryAddrs" : String) != "" then
    (props, true)
  else
    (props.map (fun p => if p.1 == key then (key, value) else p), false)

/-- Forwarding listener for the actor removed registry event
(application.js lines 101-103): the listener receives the removed aid but
re-emits the facade event with an empty argument list. Returns the emitted
event name and its argument list. -/
def actorRemovedForward (aid : String) : String × List String :=
  ("actor removed", [])

/-- A request as built by send (application.js line 215-216). The content is
modelled as an optional string and headers as a string association list. -/
structure Req where
  from_ : String
  to_ : String
  content : Option String
  id : String
  date : Nat
  timeout : Nat
  headers : List (String × String)
deriving DecidableEq

/-- A response as built inside onReq (application.js lines 280 and 286). -/
structure Res where
  from_ : String
  to_ : String
  err : Option String
  content : Option String
  date : Nat
  id : String
  headers : List (String × String)
deriving DecidableEq

/-- Identifiers in scope inside onReq in application.js: its parameters,
its local variables, and the module level bindings of the file. The
identifier date is not among them. -/
def onReqScope : List String :=
  ["req", "reply", "actor", "mReply", "err", "content",
   "_", "timers", "EventEmitter", "tv4", "properties", "actors", "discovery",
   "logger", "schemas", "utils", "_this", "started", "locked",
   "startingQueue", "_properties", "middlewares", "events", "adapters",
   "msgType", "internalSend", "onReq", "onRes", "onDrop",
   "processStartingQueue", "searchActor", "setImmediate",
   "exports", "module", "require", "__dirname"]

/-- Evaluation of a bare identifier in a scope: a name that is bound yields a
value, a name that is not bound raises a ReferenceError. The ok value is a
placeholder, only reachable for bound identifiers. -/
def evalIdent (scope : List String) (x : String) : Except String Nat :=
  if x ∈ scope then Except.ok 0
  else Except.error ("ReferenceError: " ++ x ++ " is not defined")

/-- The transient middleware reply of onReq (application.js lines 279-281):
it builds its response with the field date set to the bare identifier date,
which is bound nowhere in the scope of onReq, so evaluating it raises a
ReferenceError and no response is produced. -/
def mReply (actor_id : String) (req : Req) (err content : Option String) :
    Except String Res :=
  (evalIdent onReqScope "date").map (fun date =>
    { from_ := actor_id, to_ := req.from_, err := err, content := content,
      date := date, id := req.id, headers := req.headers })

/-- The handler reply installed on the request by onReq
(application.js lines 285-291): the response copies date and id from the
request and addresses the original sender. -/
def reqReply (actor_id : String) (req : Req) (err content : Option String) :
    Res :=
  { from_ := actor_id, to_ := req.from_, err := err, content := content,
    date := req.date, id := req.id, headers := req.headers }

/-- The found-actor branch of internalSend (application.js lines 251-265):
when the deadline has not passed, the fully qualified aid found by the search
is written into the to field of the request object itself (line 255). -/
def internalSendResolve (req : Req) (aid : String) (now : Nat) : Req :=
  if now < req.date + req.timeout then { req with to_ := aid } else req

/-- The retry of onDrop (application.js lines 322-332): within the deadline it
re-runs internalSend on the very request object the drop listener closed over
(line 230), so the search target of the retry is the current to field of that
shared object. Returns none when the deadline has passed. -/
def onDropRetryTarget (req : Req) (now : Nat) : Option String :=
  if now < req.date + req.timeout then some req.to_ else none

/-- The raw arguments of a send call, as pushed onto the starting queue at
application.js line 241. The callback is modelled by whether one was
supplied. -/
structure SendArgs where
  from_ : String
  to_ : String
  content : Option String
  timeout : Option Nat
  cb : Bool
  headers : Option (List (String × String))
deriving DecidableEq

/-- Module level container state: the started and locked flags
(application.js lines 33 and 38) and the starting queue (line 44). -/
structure CState where
  started : Bool
  locked : Bool
  startingQueue : List SendArgs
deriving DecidableEq

/-- Observable outcome of a lifecycle call: noop (a warning is logged, the
call returns, no callback is invoked), techErr (the callback is invoked with
code TECHERR), or completed (the transition finished and the callback was
invoked). -/
inductive Outcome where
  | noop
  | techErr
  | completed
deriving DecidableEq

/-- exports.start (application.js lines 128-164). When locked or already
started it logs and returns without invoking the callback. Otherwise it sets
locked, validates the parameters: on invalid parameters it invokes the
callback with TECHERR and returns, leaving locked set (lines 144-148);
on valid parameters the transport and discovery start and the completion
handler sets started and clears locked (lines 152-161, collapsed here into
one step since the claims concern the synchronous guard). -/
def start (st : CState) (paramsValid : Bool) : CState × Outcome :=
  if st.locked || st.started then
    (st, Outcome.noop)
  else if !paramsValid then
    ({ st with locked := true }, Outcome.techErr)
  else
    ({ st with started := true, locked := false }, Outcome.completed)

/-- exports.stop (application.js lines 171-189). When locked or not started
it logs and returns without invoking the callback; otherwise the completion
handler clears started and locked (collapsed into one step). -/
def stop (st : CState) : CState × Outcome :=
  if st.locked || !st.started then
    (st, Outcome.noop)
  else
    ({ st with started := false, locked := false }, Outcome.completed)

/-- The started dispatch of exports.send (application.js lines 214-243): when
the container is started the request proceeds to build, validate and
dispatch (returned as some); when it is not started the raw arguments are
appended to the starting queue (line 241) and nothing is dispatched. -/
def send (st : CState) (e : SendArgs) : CState × Option SendArgs :=
  if st.started then (st, some e)
  else ({ st with startingQueue := st.startingQueue ++ [e] }, none)

/-- Iterated send calls, in order. -/
def sendMany (st : CState) (es : List SendArgs) : CState :=
  es.foldl (fun s e => (send s e).1) st

/-- processStartingQueue (application.js lines 337-343): each queued entry is
re-submitted through exports.send in queue order (the forEach schedules them
through the FIFO setImmediate at lines 450-456, which preserves order), then
the queue is reset to the empty array. Returns the new state and the
re-submitted entries in dispatch order. -/
def processStartingQueue (st : CState) : CState × List SendArgs :=
  ({ st with startingQueue := [] }, st.startingQueue)

/-- A lifecycle call: a start with parameters that are valid or not, or a
stop. -/
inductive LifeCall where
  | start (paramsValid : Bool)
  | stop
deriving DecidableEq

/-- One lifecycle call against the container state. -/
def lifeStep (st : CState) : LifeCall → CState × Outcome
  | LifeCall.start v => start st v
  | LifeCall.stop => stop st

/-- A sequence of lifecycle calls, returning the final state and the outcome
of each call in order. -/
def runCalls (st : CState) : List LifeCall → CState × List Outcome
  | [] => (st, [])
  | c :: cs =>
    let p := lifeStep st c
    let q := runCalls p.1 cs
    (q.1, p.2 :: q.2)

/-- The message kind tags of the middleware chain
(application.js lines 85-90). -/
inductive MsgType where
  | REQ_OUT
  | REQ_IN
  | RES_OUT
  | RES_IN
deriving DecidableEq

/-- The reply argument handed to processMiddlewares: either the JavaScript
null value or a function (identified by a tag). -/
inductive ReplyArg where
  | jsNull
  | fn (f : Nat)
deriving DecidableEq

/-- Whether a reply argument can be called. -/
def callable : ReplyArg → Bool
  | ReplyArg.fn _ => true
  | ReplyArg.jsNull => false

/-- The reply argument passed to processMiddlewares at each of its four call
sites in application.js: line 224 (REQ_OUT) passes the send callback, a
function exactly when the caller supplied one and null otherwise; line 282
(REQ_IN) passes the mReply function; line 288 (RES_OUT) passes null;
line 307 (RES_IN) passes null. -/
def replyArgAt (k : MsgType) (cbProvided : Bool) : ReplyArg :=
  match k with
  | MsgType.REQ_OUT => if cbProvided then ReplyArg.fn 0 else ReplyArg.jsNull
  | MsgType.REQ_IN => ReplyArg.fn 1
  | MsgType.RES_OUT => ReplyArg.jsNull
  | MsgType.RES_IN => ReplyArg.jsNull

/-- A message flowing through the middleware chain: a payload and the
transient reply property, which is absent (none) when deleted. -/
structure MidMsg where
  payload : Nat
  reply : Option ReplyArg
deriving DecidableEq

/-- processMiddlewares (application.js lines 361-373): the reply argument is
stored on the message (line 364), the same message is handed to each of the
n middlewares in order, and the reply property is deleted (line 369) before
the completion callback runs. Returns the message as each middleware sees it
and the message as the completion callback sees it. -/
def processMiddlewares (msg : MidMsg) (reply : ReplyArg) (n : Nat) :
    List MidMsg × MidMsg :=
  let during : MidMsg := { msg with reply := some reply }
  (List.replicate n during, { during with reply := none })

/-- A registered listener of the internal event emitter: the event name it is
registered for, whether it was registered with once, and a tag identifying
the handler closure. -/
structure Listener where
  event : String
  once : Bool
  tag : Nat
deriving DecidableEq

/-- The internal event emitter (application.js line 71): its current listener
list, in registration order. -/
structure Emitter where
  listeners : List Listener
deriving DecidableEq

/-- Handler tags fired by emitting an event: every listener registered for
that event, in registration order. -/
def emitFired (e : Emitter) (ev : String) : List Nat :=
  (e.listeners.filter (fun l => l.event == ev)).map Listener.tag

/-- Emitter state after emitting an event: the listeners registered with once
for that event are removed (a once wrapper removes itself on its first
call), everything else stays. -/
def emitStep (e : Emitter) (ev : String) : Emitter :=
  { listeners := e.listeners.filter (fun l => !(l.event == ev && l.once)) }

/-- Emission of a sequence of events, collecting every fired handler tag in
order. -/
def emitSeq : Emitter → List String → List Nat
  | _, [] => []
  | e, ev :: evs => emitFired e ev ++ emitSeq (emitStep e ev) evs

/-- events.once: register a one-shot listener. -/
def once (e : Emitter) (ev : String) (tag : Nat) : Emitter :=
  { listeners := e.listeners ++ [{ event := ev, once := true, tag := tag }] }

/-- events.on: register a persistent listener. -/
def onEvent (e : Emitter) (ev : String) (tag : Nat) : Emitter :=
  { listeners := e.listeners ++ [{ event := ev, once := false, tag := tag }] }

/-- The listener registration of send for a request awaiting a response
(application.js lines 226-231): a one-shot listener for the response event
of the request id, then a persistent listener for the drop event of the
request id. -/
def registerSendListeners (e : Emitter) (id : String) (resTag dropTag : Nat) :
    Emitter :=
  onEvent (once e ("res|" ++ id) resTag) ("drop|" ++ id) dropTag

/-- Number of listeners of the emitter whose handler is the given tag. -/
def tagCount (e : Emitter) (t : Nat) : Nat :=
  e.listeners.countP (fun l => l.tag == t)

/-! Helper lemmas about the emitter model. -/

lemma fired_count (l : List Listener) (ev : String) (t : Nat) :
    ((l.filter (fun x => x.event == ev)).map Listener.tag).count t
      = l.countP (fun x => x.event == ev && x.tag == t) := by
  induction l with
  | nil => rfl
  | cons x xs ih =>
    by_cases hA : x.event = ev
    · by_cases hB : x.tag = t
      · simp [List.filter_cons, List.count_cons, List.countP_cons, hA, hB, ih]
      · simp [List.filter_cons, List.count_cons, List.countP_cons, hA, hB, ih]
    · simp [List.filter_cons, List.countP_cons, hA, ih]

lemma emit_split (l : List Listener) (ev : String) (t : Nat)
    (h : ∀ x ∈ l, x.tag = t → x.once = true) :
    l.countP (fun x => x.event == ev && x.tag == t)
      + (l.filter (fun x => !(x.event == ev && x.once))).countP
          (fun x => x.tag == t)
      = l.countP (fun x => x.tag == t) := by
  induction l with
  | nil => rfl
  | cons x xs ih =>
    have hxs : ∀ y ∈ xs, y.tag = t → y.once = true := fun y hy hyt =>
      h y (List.mem_cons_of_mem x hy) hyt
    have hrec := ih hxs
    by_cases hB : x.tag = t
    · have hC : x.once = true := h x (List.mem_cons_self x xs) hB
      by_cases hA : x.event = ev
      · simp [List.filter_cons, List.countP_cons, hA, hB, hC] at hrec ⊢
        omega
      · simp [List.filter_cons, List.countP_cons, hA, hB, hC] at hrec ⊢
        omega
    · by_cases hA : x.event = ev
      · by_cases hC : x.once = true
        · simp [List.filter_cons, List.countP_cons, hA, hB, hC] at hrec ⊢
          omega
        · simp [List.filter_cons, List.countP_cons, hA, hB, hC] at hrec ⊢
          omega
      · simp [List.filter_cons, List.countP_cons, hA, hB] at hrec ⊢
        omega

lemma emitSeq_count_le (e : Emitter) (evs : List String) (t : Nat)
    (h : ∀ x ∈ e.listeners, x.tag = t → x.once = true) :
    (emitSeq e evs).count t ≤ tagCount e t := by
  induction evs generalizing e with
  | nil => simp [emitSeq]
  | cons ev evs ih =>
    have hstep : ∀ x ∈ (emitStep e ev).listeners, x.tag = t → x.once = true :=
      fun x hx hxt => h x (List.mem_of_mem_filter hx) hxt
    have h1 := fired_count e.listeners ev t
    have h2 := emit_split e.listeners ev t h
    have h3 := ih (emitStep e ev) hstep
    simp only [emitSeq, List.count_append]
    simp [emitFired, tagCount, emitStep] at h1 h2 h3 ⊢
    omega

/-! Helper lemmas about the container state. -/

lemma sendMany_not_started (st : CState) (es : List SendArgs)
    (h : st.started = false) :
    sendMany st es = { st with startingQueue := st.startingQueue ++ es } := by
  induction es generalizing st with
  | nil => simp [sendMany]
  | cons e es ih =>
    have h1 : send st e = ({ st with startingQueue := st.startingQueue ++ [e] },
        none) := by
      simp [send, h]
    have h2 : sendMany st (e :: es)
        = sendMany ({ st with startingQueue := st.startingQueue ++ [e] }) es := by
      simp [sendMany, h1]
    rw [h2, ih _ (by simp [h])]
    simp

lemma all_replicate_of {α : Type} (n : Nat) (a : α) (p : α → Bool)
    (h : p a = true) : (List.replicate n a).all p = true := by
  induction n with
  | zero => rfl
  | succ n ih => simp [List.replicate_succ, List.all_cons, h, ih]

/-! The claims. -/

/-- Claim C1: for every request sent with a callback, the callback is invoked
at most once. The response listener for the res event of the request id is
registered with once, so over any sequence of emissions — a transport
response, the synthesised timeout event, or both — the response handler
fires at most once, and after the first res emission the listener is gone
from the emitter. -/
theorem C1_response_listener_fires_at_most_once
    (e : Emitter) (id : String) (resTag dropTag : Nat) (evs : List String)
    (h0 : tagCount e resTag = 0) (hne : dropTag ≠ resTag) :
    (emitSeq (registerSendListeners e id resTag dropTag) evs).count resTag ≤ 1 ∧
    tagCount (emitStep (registerSendListeners e id resTag dropTag)
      ("res|" ++ id)) resTag = 0 := by
  have hno : ∀ x ∈ e.listeners, ¬ x.tag = resTag := by
    intro x hx hxt
    have := List.countP_eq_zero.mp h0 x hx
    simp [hxt] at this
  constructor
  · have honce : ∀ x ∈ (registerSendListeners e id resTag dropTag).listeners,
        x.tag = resTag → x.once = true := by
      intro x hx hxt
      simp [registerSendListeners, onEvent, once] at hx
      rcases hx with hx | hx | hx
      · exact absurd hxt (hno x hx)
      · simp [hx]
      · rw [hx] at hxt
        exact absurd hxt hne
    have hle := emitSeq_count_le (registerSendListeners e id resTag dropTag)
      evs resTag honce
    have hcnt : tagCount (registerSendListeners e id resTag dropTag) resTag
        = 1 := by
      simp [tagCount, registerSendListeners, onEvent, once, List.countP_append,
        List.countP_cons]
      have hz : e.listeners.countP (fun l => l.tag == resTag) = 0 :=
        List.countP_eq_zero.mpr (by
          intro x hx
          simp [hno x hx])
      simp [hz]
      exact hne
    omega
  · rw [tagCount, List.countP_eq_zero]
    intro x hx
    rcases List.mem_filter.mp hx with ⟨hmem, hcond⟩
    simp [registerSendListeners, onEvent, once] at hmem
    rcases hmem with hm | hm | hm
    · simp [hno x hm]
    · rw [hm] at hcond
      simp at hcond
    · rw [hm]
      simp
      exact hne

/-- Witness for claim C1 at a concrete emitter and a concrete double
emission: a transport response followed by the synthesised timeout event for
the same request id fire the callback handler once. -/
theorem C1_response_listener_fires_at_most_once_witness :
    tagCount (Emitter.mk []) 0 = 0 ∧ (1 : Nat) ≠ 0 ∧
    ((emitSeq (registerSendListeners (Emitter.mk []) "42" 0 1)
        ["res|42", "res|42"]).count 0 ≤ 1 ∧
      tagCount (emitStep (registerSendListeners (Emitter.mk []) "42" 0 1)
        ("res|" ++ "42")) 0 = 0) :=
  ⟨by decide, by decide,
    C1_response_listener_fires_at_most_once (Emitter.mk []) "42" 0 1
      ["res|42", "res|42"] (by decide) (by decide)⟩

/-- Claim C2 is refuted by the code: internalSend rewrites the to field of
the request object itself (line 255), and the drop listener closed over that
same object (line 230), so after a first resolution the retry searches the
fully qualified aid written by the resolution, not the bare target the caller
supplied. Evaluated at a concrete request resolved from the bare target pong
to the full aid pong/u1 and then dropped, both within the deadline. -/
theorem C2_retry_resolves_previous_aid :
    internalSendResolve
        (Req.mk "a/0" "pong" (some "ping") "r1" 0 30000 []) "pong/u1" 5
      = Req.mk "a/0" "pong/u1" (some "ping") "r1" 0 30000 [] ∧
    onDropRetryTarget
        (Req.mk "a/0" "pong/u1" (some "ping") "r1" 0 30000 []) 10
      = some "pong/u1" ∧
    some ("pong/u1" : String) ≠ some ("pong" : String) := by
  decide

/-- Claim C3: the handler path of onReq does copy id, to and date from the
request (first conjunct), but the middleware short-circuit reply is refuted
by the code: it evaluates the unbound identifier date (line 280) and raises
a ReferenceError instead of producing a response, evaluated here at a
concrete incoming request. -/
theorem C3_response_correlation :
    (∀ (a : String) (req : Req) (e c : Option String),
        (reqReply a req e c).id = req.id ∧
        (reqReply a req e c).to_ = req.from_ ∧
        (reqReply a req e c).date = req.date) ∧
    mReply "pong/u1"
        (Req.mk "ping/u1" "pong/u1" (some "ping") "r1" 7 30000 []) none none
      = Except.error "ReferenceError: date is not defined" := by
  refine ⟨fun a req e c => ⟨rfl, rfl, rfl⟩, ?_⟩
  rfl

/-- Counterexample to claim C4: a send call with callback and an explicit
timeout argument of 0 builds the request with effective timeout equal to the
max send timeout (300000 ms), not the default send timeout (30000 ms). -/
theorem C4_counterexample :
    sendEffectiveTimeout (JsArg.num 0) (JsArg.fn 0) JsArg.undef = 300000 ∧
    ¬ sendEffectiveTimeout (JsArg.num 0) (JsArg.fn 0) JsArg.undef
        = defaultSendTimeout := by
  decide

/-- Claim C4 as amended: when the callback occupies the timeout argument slot
(timeout absent), the effective timeout is the default send timeout; when a
falsy timeout (0, undefined or null) is passed together with a separate
callback, the effective timeout is the max send timeout. -/
theorem C4_effective_timeout (f g : Nat) (c h1 h2 : JsArg) :
    sendEffectiveTimeout (JsArg.fn f) c h1 = defaultSendTimeout ∧
    sendEffectiveTimeout (JsArg.num 0) (JsArg.fn g) h2 = maxSendTimeout ∧
    sendEffectiveTimeout JsArg.undef (JsArg.fn g) h2 = maxSendTimeout ∧
    sendEffectiveTimeout JsArg.null (JsArg.fn g) h2 = maxSendTimeout := by
  refine ⟨?_, ?_, ?_, ?_⟩ <;>
    simp [sendEffectiveTimeout, sendNormalize, effectiveTimeout, isFunction,
      isObject, jsTruthy, numVal, defaultSendTimeout, maxSendTimeout]

/-- Claim C5 is refuted by the code: the condition of exports.set is an
assignment, so every set call — here with the ordinary key retry delay —
leaves the property list unchanged and delegates to
discovery.setDiscoveryAddrs. -/
theorem C5_set_always_delegates :
    set [("retry delay", 10)] "retry delay" 99 = ([("retry delay", 10)], true) ∧
    set [("retry delay", 10)] "discoveryAddrs" 99
      = ([("retry delay", 10)], true) := by
  decide

/-- Counterexample to claim C6: after stop completes the started flag is
false again, and a send in that state appends its arguments to the starting
queue — it is not a log-only no-op without enqueue. -/
theorem C6_counterexample :
    (stop (CState.mk true false [])).1 = CState.mk false false [] ∧
    send (CState.mk false false [])
        (SendArgs.mk "a/0" "b" (some "hi") none false none)
      = (CState.mk false false [SendArgs.mk "a/0" "b" (some "hi") none false
          none], none) ∧
    [SendArgs.mk "a/0" "b" (some "hi") none false none]
      ≠ ([] : List SendArgs) := by
  decide

/-- Claim C6 as amended: a send issued while the container is not started —
whether before the first start or after a stop has completed — appends the
raw send arguments to the starting queue and performs no immediate dispatch. -/
theorem C6_send_not_started_enqueues (st : CState) (e : SendArgs)
    (h : st.started = false) :
    send st e = ({ st with startingQueue := st.startingQueue ++ [e] }, none) := by
  simp [send, h]

/-- Witness for the amended claim C6 at a concrete stopped state. -/
theorem C6_send_not_started_enqueues_witness :
    (CState.mk false false []).started = false ∧
    send (CState.mk false false [])
        (SendArgs.mk "a/0" "b" (some "hi") none false none)
      = (CState.mk false false
          [SendArgs.mk "a/0" "b" (some "hi") none false none], none) :=
  ⟨rfl, C6_send_not_started_enqueues (CState.mk false false [])
    (SendArgs.mk "a/0" "b" (some "hi") none false none) rfl⟩

/-- Claim C7: sends issued before start build the starting queue in insertion
order; processStartingQueue re-submits exactly the queued entries in that
order, empties the queue, and a second drain re-submits nothing, so no entry
is ever re-submitted twice. -/
theorem C7_starting_queue_drained_once (st : CState) (es : List SendArgs)
    (h : st.started = false) :
    (sendMany st es).startingQueue = st.startingQueue ++ es ∧
    (processStartingQueue (sendMany st es)).2 = st.startingQueue ++ es ∧
    (processStartingQueue (sendMany st es)).1.startingQueue = [] ∧
    (processStartingQueue (processStartingQueue (sendMany st es)).1).2
      = [] := by
  have hq := sendMany_not_started st es h
  exact ⟨by simp [hq], by simp [hq, processStartingQueue], rfl, rfl⟩

/-- Witness for claim C7: three sends queued on an idle container are drained
once, in order. -/
theorem C7_starting_queue_drained_once_witness :
    (CState.mk false false []).started = false ∧
    ((sendMany (CState.mk false false [])
        [SendArgs.mk "a" "b" (some "one") none false none,
         SendArgs.mk "a" "b" (some "two") none false none,
         SendArgs.mk "a" "b" (some "three") none false none]).startingQueue
      = [SendArgs.mk "a" "b" (some "one") none false none,
         SendArgs.mk "a" "b" (some "two") none false none,
         SendArgs.mk "a" "b" (some "three") none false none] ∧
     (processStartingQueue (sendMany (CState.mk false false [])
        [SendArgs.mk "a" "b" (some "one") none false none,
         SendArgs.mk "a" "b" (some "two") none false none,
         SendArgs.mk "a" "b" (some "three") none false none])).2
      = [SendArgs.mk "a" "b" (some "one") none false none,
         SendArgs.mk "a" "b" (some "two") none false none,
         SendArgs.mk "a" "b" (some "three") none false none] ∧
     (processStartingQueue (sendMany (CState.mk false false [])
        [SendArgs.mk "a" "b" (some "one") none false none,
         SendArgs.mk "a" "b" (some "two") none false none,
         SendArgs.mk "a" "b" (some "three") none false
           none])).1.startingQueue = [] ∧
     (processStartingQueue (processStartingQueue (sendMany
        (CState.mk false false [])
        [SendArgs.mk "a" "b" (some "one") none false none,
         SendArgs.mk "a" "b" (some "two") none false none,
         SendArgs.mk "a" "b" (some "three") none false none])).1).2 = []) :=
  ⟨rfl, C7_starting_queue_drained_once (CState.mk false false [])
    [SendArgs.mk "a" "b" (some "one") none false none,
     SendArgs.mk "a" "b" (some "two") none false none,
     SendArgs.mk "a" "b" (some "three") none false none] rfl⟩

/-- Counterexample to claim C8: during the RES_OUT chain the reply argument
is null and therefore not callable, while during the REQ_OUT chain of a send
with a callback it is that callback and therefore callable — the opposite of
the claimed kinds. -/
theorem C8_counterexample :
    callable (replyArgAt MsgType.RES_OUT true) = false ∧
    callable (replyArgAt MsgType.REQ_OUT true) = true := by
  decide

/-- Claim C8 as amended: the reply property is set on the message for every
kind; it is callable exactly for REQ_IN, and for REQ_OUT when the caller
supplied a callback, while RES_OUT and RES_IN carry null; and the reply
property is deleted from the message before the completion callback of the
chain runs, so it does not leak past the chain. -/
theorem C8_reply_visibility (k : MsgType) (cb : Bool) (msg : MidMsg) (n : Nat) :
    callable (replyArgAt k cb)
      = (k == MsgType.REQ_IN || (k == MsgType.REQ_OUT && cb)) ∧
    (processMiddlewares msg (replyArgAt k cb) n).1.all
      (fun m => m.reply == some (replyArgAt k cb)) = true ∧
    (processMiddlewares msg (replyArgAt k cb) n).2.reply = none := by
  refine ⟨?_, ?_, rfl⟩
  · cases k <;> cases cb <;> rfl
  · exact all_replicate_of n _ _ (by simp)

/-- Claim C9 is refuted by the code: the registry listener re-emits the
actor removed facade event with an empty argument list, so the event does
not carry the removed aid. Evaluated at the concrete aid ping/u1. -/
theorem C9_actor_removed_without_aid :
    actorRemovedForward "ping/u1" = ("actor removed", []) ∧
    (actorRemovedForward "ping/u1").2 ≠ ["ping/u1"] := by
  decide

/-- Claim C10: starting an idle container with invalid parameters invokes the
callback with TECHERR but leaves the lock set, and from that state every
sequence of further start or stop calls, with any arguments, returns
immediately as a no-op: the state never changes and no callback is ever
invoked again. -/
theorem C10_invalid_start_params_leak_lock (calls : List LifeCall) :
    start (CState.mk false false []) false
      = (CState.mk false true [], Outcome.techErr) ∧
    runCalls (CState.mk false true []) calls
      = (CState.mk false true [], List.replicate calls.length Outcome.noop) := by
  refine ⟨rfl, ?_⟩
  induction calls with
  | nil => rfl
  | cons c cs ih =>
    cases c <;>
      simp [runCalls, lifeStep, start, stop, List.replicate_succ, ih]

end Hubiquitus
